import Mathlib

/-!
Shallow embedding of `src/static/sw.js` (service worker of shivam-website/gold-shop).

The worker is a small event-driven cache manager with three handlers:
`install`, `fetch`, `activate`.  We embed:

* the cache storage as an ordered association list of named cache
  instances, each an association list from URL keys to stored responses;
* the fetch handler as a pure function from the cache state, the request
  and a network oracle to an outcome plus the updated cache state;
* the install handler as a fold over the manifest with a per-URL network
  oracle (`none` models a rejected `cache.add`);
* the activate handler both as a state transformer (which instances
  survive) and as an ordered event trace (`activateTrace`), following the
  JS event-loop: the handler body runs synchronously (`caches.keys()` is
  issued, `waitUntil` registers the cleanup promise, `clients.claim()` is
  invoked), and the per-name deletions run later, when the keys promise
  resolves.

`Request.accept` is the value of `headers.get('accept')`: `none` models a
missing Accept header (the DOM call returns `null`), on which the JS
expression `.includes('text/html')` throws a TypeError.
-/

namespace SW

/-- A stored/network response: status, `type` field and body bytes. -/
structure Response where
  status : Nat
  rtype : String
  body : String
deriving DecidableEq, Repr

/-- A request as seen by the fetch handler.  `accept` is the result of
`headers.get('accept')` (`none` = header absent = JS `null`). -/
structure Request where
  url : String
  method : String
  mode : String
  accept : Option String
deriving DecidableEq, Repr

/-- One cache instance: URL-keyed entries, in insertion order. -/
abbrev CacheInst := List (String × Response)

/-- The cache storage: named instances, in key order. -/
abbrev CacheStorage := List (String × CacheInst)

/-- `'goldshop-cache-v3'`, the current generation identifier. -/
def CACHE_NAME : String := "goldshop-cache-v3"

/-- The install-time manifest `urlsToCache` from the source. -/
def urlsToCache : List String :=
  ["/", "/dashboard", "/login", "/static/style.css",
    "/static/images/icon-192x192.png", "/static/images/icon-512x512.png",
    "/static/images/icon-maskable-192x192.png", "/static/sw.js",
    "/offline.html"]

/-- Does the pattern start the character list?  (Embeds the initial-match
step of JS `String.prototype.includes`.) -/
def startsWithL : List Char → List Char → Bool
  | [], _ => true
  | _ :: _, [] => false
  | p :: ps, c :: cs => p == c && startsWithL ps cs

/-- Does the pattern occur anywhere in the character list? -/
def hasSubL (p : List Char) : List Char → Bool
  | [] => startsWithL p []
  | c :: cs => startsWithL p (c :: cs) || hasSubL p cs

/-- JS `s.includes(pat)`: substring containment. -/
def containsSubstr (s pat : String) : Bool :=
  hasSubL pat.data s.data

/-- Look a URL key up in one cache instance (first matching entry). -/
def cacheMatch : CacheInst → String → Option Response
  | [], _ => none
  | (u, r) :: rest, url => if u = url then some r else cacheMatch rest url

/-- `caches.match(request)`: search every instance, in storage order. -/
def cachesMatch : CacheStorage → String → Option Response
  | [], _ => none
  | (_, c) :: rest, url =>
    match cacheMatch c url with
    | some r => some r
    | none => cachesMatch rest url

/-- `caches.open(name)`: the named instance's contents (empty if absent —
opening creates an empty instance). -/
def cachesOpen : CacheStorage → String → CacheInst
  | [], _ => []
  | (n, c) :: rest, name => if n = name then c else cachesOpen rest name

/-- Write the named instance's contents back into the storage, creating
the instance if absent. -/
def cachesSet : CacheStorage → String → CacheInst → CacheStorage
  | [], name, c => [(name, c)]
  | (n, c0) :: rest, name, c =>
    if n = name then (name, c) :: rest else (n, c0) :: cachesSet rest name c

/-- `cache.put(request, response)`: overwrite by key, append if new. -/
def cachePut : CacheInst → String → Response → CacheInst
  | [], url, r => [(url, r)]
  | (u, r0) :: rest, url, r =>
    if u = url then (url, r) :: rest else (u, r0) :: cachePut rest url r

/-- `caches.open(name).then(cache => cache.put(url, r))`. -/
def cachesOpenPut (st : CacheStorage) (name url : String) (r : Response) :
    CacheStorage :=
  cachesSet st name (cachePut (cachesOpen st name) url r)

/-- Does the current-generation instance hold an entry for the URL? -/
def currentCacheHas (st : CacheStorage) (url : String) : Bool :=
  (cacheMatch (cachesOpen st CACHE_NAME) url).isSome

/-- Result of the JS expression at lines 46–47:
`event.request.mode === 'navigate' || (event.request.method === 'GET' &&
event.request.headers.get('accept').includes('text/html'))`.
`Except.error ()` is the TypeError thrown when the Accept header is
absent (`headers.get` returned `null`) and the second disjunct is
evaluated. -/
def isHtmlNavigation (req : Request) : Except Unit Bool :=
  if req.mode = "navigate" then Except.ok true
  else if req.method = "GET" then
    match req.accept with
    | none => Except.error ()
    | some a => Except.ok (containsSubstr a "text/html")
  else Except.ok false

/-- What `fetch(event.request)` did: the promise rejected, or resolved
with a possibly-absent response (the code guards `!networkResponse`). -/
inductive NetworkResult
  | rejected : NetworkResult
  | resolved : Option Response → NetworkResult
deriving DecidableEq, Repr

/-- What the fetch handler produced: `thrown` — the listener threw before
`respondWith` (no response provided); `failed` — the `respondWith` promise
rejected (`throw error` at line 96); `responded r` — resolved with `r`
(`none` = resolved with `undefined`). -/
inductive FetchOutcome
  | thrown : FetchOutcome
  | failed : FetchOutcome
  | responded : Option Response → FetchOutcome
deriving DecidableEq, Repr

/-- The fetch listener (lines 44–100): classify, cache-first lookup,
network, validity check with navigation fallback, opportunistic
write-through for GET non-API URLs.  Returns the outcome and the cache
storage after the (fire-and-forget) write has landed. -/
def handleFetch (st : CacheStorage) (req : Request) (net : NetworkResult) :
    FetchOutcome × CacheStorage :=
  match isHtmlNavigation req with
  | Except.error _ => (FetchOutcome.thrown, st)
  | Except.ok isNav =>
    match cachesMatch st req.url with
    | some cachedResponse => (FetchOutcome.responded (some cachedResponse), st)
    | none =>
      match net with
      | NetworkResult.rejected =>
        if isNav then
          (FetchOutcome.responded (cachesMatch st "/offline.html"), st)
        else
          (FetchOutcome.failed, st)
      | NetworkResult.resolved none =>
        if isNav then
          (FetchOutcome.responded (cachesMatch st "/offline.html"), st)
        else
          (FetchOutcome.responded none, st)
      | NetworkResult.resolved (some networkResponse) =>
        if networkResponse.status ≠ 200 ∨ networkResponse.rtype ≠ "basic" then
          if isNav then
            (FetchOutcome.responded (cachesMatch st "/offline.html"), st)
          else
            (FetchOutcome.responded (some networkResponse), st)
        else
          let st' :=
            if req.method = "GET" ∧ containsSubstr req.url "/api/" = false then
              cachesOpenPut st CACHE_NAME req.url networkResponse
            else st
          (FetchOutcome.responded (some networkResponse), st')

/-- One manifest entry's `cache.add(url).catch(...)` during install: the
oracle gives the stored response, or `none` when the add rejected (fetch
failure, non-ok status, …) — the rejection is caught and the cache is
left as it was. -/
def installStep (net : String → Option Response) (c : CacheInst)
    (url : String) : CacheInst :=
  match net url with
  | none => c
  | some r => cachePut c url r

/-- The install listener (lines 22–41): open the current-generation
cache and attempt every manifest URL, each independently. -/
def handleInstall (net : String → Option Response) (st : CacheStorage) :
    CacheStorage :=
  cachesSet st CACHE_NAME (urlsToCache.foldl (installStep net) (cachesOpen st CACHE_NAME))

/-- The activate listener's effect on the storage (lines 103–117): every
instance whose name is not in `[CACHE_NAME]` is deleted. -/
def handleActivate (st : CacheStorage) : CacheStorage :=
  st.filter (fun p => p.1 = CACHE_NAME)

/-- Primitive operations the activate listener performs, for ordering. -/
inductive ActEvent
  | listKeys : ActEvent
  | deleteCache : String → ActEvent
  | claimClients : ActEvent
deriving DecidableEq, Repr

/-- The ordered trace of the activate listener (lines 103–120) under JS
event-loop semantics: the body runs synchronously — `caches.keys()` is
issued, `waitUntil` registers the cleanup chain, and `self.clients.claim()`
on line 119 is invoked — and only afterwards, when the keys promise
resolves with the instance names, does the `.then` callback issue
`caches.delete` for each non-whitelisted name. -/
def activateTrace (cacheNames : List String) : List ActEvent :=
  ActEvent.listKeys :: ActEvent.claimClients ::
    (cacheNames.filter (fun n => n ≠ CACHE_NAME)).map ActEvent.deleteCache

end SW

namespace SW

/-! ### Helper lemmas about the cache model -/

theorem cacheMatch_cachePut (c : CacheInst) (u : String) (r : Response)
    (url : String) :
    cacheMatch (cachePut c u r) url =
      if url = u then some r else cacheMatch c url := by
  induction c with
  | nil =>
    rcases eq_or_ne url u with h | h
    · subst h; simp [cachePut, cacheMatch]
    · simp [cachePut, cacheMatch, if_neg h, if_neg (Ne.symm h)]
  | cons head tail ih =>
    rcases head with ⟨u0, r0⟩
    by_cases h0 : u0 = u
    · subst h0
      rcases eq_or_ne url u0 with h | h
      · subst h; simp [cachePut, cacheMatch]
      · simp [cachePut, cacheMatch, if_neg h, if_neg (Ne.symm h)]
    · rcases eq_or_ne url u with h | h
      · subst h
        simp [cachePut, cacheMatch, if_neg h0, ih, if_neg (Ne.symm h0)]
      · by_cases h1 : u0 = url
        · subst h1
          simp [cachePut, cacheMatch, if_neg h0, if_neg h]
        · simp [cachePut, cacheMatch, if_neg h0, if_neg h1, ih, if_neg h]

theorem cachesOpen_cachesSet (st : CacheStorage) (name : String)
    (c : CacheInst) :
    cachesOpen (cachesSet st name c) name = c := by
  induction st with
  | nil => simp [cachesSet, cachesOpen]
  | cons head tail ih =>
    rcases head with ⟨n, c0⟩
    by_cases h : n = name
    · subst h; simp [cachesSet, cachesOpen]
    · simp [cachesSet, cachesOpen, if_neg h, ih]

theorem foldl_installStep_pres (net : String → Option Response)
    (urls : List String) (c : CacheInst) (url : String)
    (h : (cacheMatch c url).isSome = true) :
    (cacheMatch (urls.foldl (installStep net) c) url).isSome = true := by
  induction urls generalizing c with
  | nil => exact h
  | cons u us ih =>
    apply ih
    unfold installStep
    cases hnet : net u with
    | none => exact h
    | some r0 =>
      rw [cacheMatch_cachePut]
      by_cases hu : url = u <;> simp [hu, h]

theorem foldl_installStep_mem (net : String → Option Response)
    (urls : List String) (c : CacheInst) (url : String) (r : Response)
    (hmem : url ∈ urls) (hr : net url = some r) :
    (cacheMatch (urls.foldl (installStep net) c) url).isSome = true := by
  induction urls generalizing c with
  | nil => cases hmem
  | cons u us ih =>
    rcases List.mem_cons.mp hmem with h | h
    · subst h
      rw [List.foldl_cons]
      apply foldl_installStep_pres
      simp [installStep, hr, cacheMatch_cachePut]
    · rw [List.foldl_cons]
      exact ih _ h

end SW

namespace SW

/-! ### Claim theorems -/

/-- C1, as stated, fails on the code: a request with a matching cached
entry but no Accept header (mode not `'navigate'`, method `GET`) makes the
classifier on lines 46–47 throw before the cache lookup, so the handler
does not return the cached entry.  Concretely, for a cached `/` and such a
request, the handler outcome is `thrown`, not the cached response. -/
theorem c1_counterexample :
    cachesMatch [(CACHE_NAME, [("/", Response.mk 200 "basic" "home")])] "/" =
      some (Response.mk 200 "basic" "home") ∧
    handleFetch [(CACHE_NAME, [("/", Response.mk 200 "basic" "home")])]
        (Request.mk "/" "GET" "no-cors" none) NetworkResult.rejected =
      (FetchOutcome.thrown,
        [(CACHE_NAME, [("/", Response.mk 200 "basic" "home")])]) ∧
    handleFetch [(CACHE_NAME, [("/", Response.mk 200 "basic" "home")])]
        (Request.mk "/" "GET" "no-cors" none) NetworkResult.rejected ≠
      (FetchOutcome.responded (some (Response.mk 200 "basic" "home")),
        [(CACHE_NAME, [("/", Response.mk 200 "basic" "home")])]) := by
  refine ⟨rfl, rfl, ?_⟩
  decide

/-- C1 (amended): for every intercepted request whose navigation
classification does not throw (mode `'navigate'`, or method not `GET`, or
an Accept header present), if any existing cache instance holds a matching
entry, the fetch handler returns that entry unchanged, leaves the storage
unchanged, and never issues the network fetch (the outcome is independent
of the network oracle, which is universally quantified). -/
theorem c1_cache_precedence (st : CacheStorage) (req : Request)
    (net : NetworkResult) (b : Bool) (r : Response)
    (hcls : isHtmlNavigation req = Except.ok b)
    (hc : cachesMatch st req.url = some r) :
    handleFetch st req net = (FetchOutcome.responded (some r), st) := by
  simp [handleFetch, hcls, hc]

/-- Witness for C1 (amended) at a concrete cached request. -/
theorem c1_cache_precedence_witness :
    handleFetch [(CACHE_NAME, [("/", Response.mk 200 "basic" "home")])]
        (Request.mk "/" "GET" "navigate" none) NetworkResult.rejected =
      (FetchOutcome.responded (some (Response.mk 200 "basic" "home")),
        [(CACHE_NAME, [("/", Response.mk 200 "basic" "home")])]) :=
  c1_cache_precedence _ _ _ true _ rfl rfl

/-- C2: for an HTML-navigation request with no cached match whose network
fetch is rejected, or resolves with a missing, non-200, or non-`'basic'`
response, the handler returns the cached `/offline.html` entry. -/
theorem c2_offline_fallback (st : CacheStorage) (req : Request)
    (net : NetworkResult) (off : Response)
    (hnav : isHtmlNavigation req = Except.ok true)
    (hnoc : cachesMatch st req.url = none)
    (hoff : cachesMatch st "/offline.html" = some off)
    (hfail : net = NetworkResult.rejected ∨
      net = NetworkResult.resolved none ∨
      ∃ r, net = NetworkResult.resolved (some r) ∧
        (r.status ≠ 200 ∨ r.rtype ≠ "basic")) :
    handleFetch st req net = (FetchOutcome.responded (some off), st) := by
  rcases hfail with h | h | ⟨r, h, hr⟩
  · subst h; simp [handleFetch, hnav, hnoc, hoff]
  · subst h; simp [handleFetch, hnav, hnoc, hoff]
  · subst h; simp [handleFetch, hnav, hnoc, hoff, hr]

/-- Witness for C2: navigation to `/dashboard` with the network down and
`/offline.html` cached yields the cached offline page. -/
theorem c2_offline_fallback_witness :
    handleFetch [(CACHE_NAME, [("/offline.html", Response.mk 200 "basic" "off")])]
        (Request.mk "/dashboard" "GET" "navigate" (some "text/html"))
        NetworkResult.rejected =
      (FetchOutcome.responded (some (Response.mk 200 "basic" "off")),
        [(CACHE_NAME, [("/offline.html", Response.mk 200 "basic" "off")])]) :=
  c2_offline_fallback _ _ _ _ rfl rfl rfl (Or.inl rfl)

/-- C3: for a request classified as a non-navigation with no cached match,
a rejected network fetch makes the handler's promise fail (the error is
re-thrown on line 96); no offline page and no other response is
substituted, and the storage is unchanged. -/
theorem c3_failure_propagation (st : CacheStorage) (req : Request)
    (hnav : isHtmlNavigation req = Except.ok false)
    (hnoc : cachesMatch st req.url = none) :
    handleFetch st req NetworkResult.rejected = (FetchOutcome.failed, st) := by
  simp [handleFetch, hnav, hnoc]

/-- Witness for C3: a GET for an image with `Accept: image/png` and the
network down fails outright. -/
theorem c3_failure_propagation_witness :
    handleFetch [] (Request.mk "/static/images/icon-192x192.png" "GET"
        "no-cors" (some "image/png")) NetworkResult.rejected =
      (FetchOutcome.failed, []) :=
  c3_failure_propagation _ _ rfl rfl

/-- C9: a request with mode other than `'navigate'`, method `GET` and no
Accept header makes the classifier dereference `null` and throw before any
cache lookup or network fetch: the handler produces no response (outcome
`thrown`), the storage is untouched, and the result does not depend on the
network oracle. -/
theorem c9_null_accept_throws (st : CacheStorage) (req : Request)
    (net : NetworkResult) (hmode : req.mode ≠ "navigate")
    (hmeth : req.method = "GET") (hacc : req.accept = none) :
    handleFetch st req net = (FetchOutcome.thrown, st) := by
  simp [handleFetch, isHtmlNavigation, hmode, hmeth, hacc]

/-- Witness for C9 at a concrete Accept-less GET request. -/
theorem c9_null_accept_throws_witness :
    handleFetch [] (Request.mk "/static/style.css" "GET" "no-cors" none)
        (NetworkResult.resolved (some (Response.mk 200 "basic" "css"))) =
      (FetchOutcome.thrown, []) :=
  c9_null_accept_throws _ _ _ (by decide) rfl rfl

/-- C10: when `/offline.html` is absent from every cache instance, an
HTML-navigation request with no cached match and a failing or invalid
network result resolves with `undefined` (no response at all), not with an
offline page or an error response. -/
theorem c10_missing_offline_page (st : CacheStorage) (req : Request)
    (net : NetworkResult)
    (hnav : isHtmlNavigation req = Except.ok true)
    (hnoc : cachesMatch st req.url = none)
    (hoff : cachesMatch st "/offline.html" = none)
    (hfail : net = NetworkResult.rejected ∨
      net = NetworkResult.resolved none ∨
      ∃ r, net = NetworkResult.resolved (some r) ∧
        (r.status ≠ 200 ∨ r.rtype ≠ "basic")) :
    handleFetch st req net = (FetchOutcome.responded none, st) := by
  rcases hfail with h | h | ⟨r, h, hr⟩
  · subst h; simp [handleFetch, hnav, hnoc, hoff]
  · subst h; simp [handleFetch, hnav, hnoc, hoff]
  · subst h; simp [handleFetch, hnav, hnoc, hoff, hr]

/-- Witness for C10: navigation with an empty cache storage and the
network down resolves with nothing. -/
theorem c10_missing_offline_page_witness :
    handleFetch [] (Request.mk "/dashboard" "GET" "navigate" (some "text/html"))
        NetworkResult.rejected = (FetchOutcome.responded none, []) :=
  c10_missing_offline_page _ _ _ rfl rfl rfl (Or.inl rfl)

end SW

namespace SW

/-- C4: after a network fetch resolving with a present, status-200,
`'basic'` response for a request with no prior cache entry (classification
having succeeded — otherwise no fetch is ever issued), a GET whose URL
does not contain `/api/` leaves an entry for that URL in the
current-generation instance, while a URL containing `/api/` leaves the
storage exactly as it was (no cache entry is created). -/
theorem c4_selective_write_through (st : CacheStorage) (req : Request)
    (r : Response) (b : Bool)
    (hcls : isHtmlNavigation req = Except.ok b)
    (hnoc : cachesMatch st req.url = none)
    (hst : r.status = 200) (hty : r.rtype = "basic")
    (hget : req.method = "GET") :
    (containsSubstr req.url "/api/" = false →
      currentCacheHas
        (handleFetch st req (NetworkResult.resolved (some r))).2 req.url =
        true) ∧
    (containsSubstr req.url "/api/" = true →
      (handleFetch st req (NetworkResult.resolved (some r))).2 = st) := by
  constructor
  · intro hapi
    simp [handleFetch, hcls, hnoc, hst, hty, hget, hapi, currentCacheHas,
      cachesOpenPut, cachesOpen_cachesSet, cacheMatch_cachePut]
  · intro hapi
    simp [handleFetch, hcls, hnoc, hst, hty, hget, hapi]

/-- Witness for C4: a successful GET for `/static/app.js` populates the
current-generation cache, while the same fetch for `/api/items` leaves the
(empty) storage empty. -/
theorem c4_selective_write_through_witness :
    currentCacheHas
      (handleFetch [] (Request.mk "/static/app.js" "GET" "no-cors" (some "*/*"))
        (NetworkResult.resolved (some (Response.mk 200 "basic" "js")))).2
      "/static/app.js" = true ∧
    (handleFetch [] (Request.mk "/api/items" "GET" "no-cors" (some "*/*"))
      (NetworkResult.resolved (some (Response.mk 200 "basic" "json")))).2 =
      [] :=
  ⟨(c4_selective_write_through []
      (Request.mk "/static/app.js" "GET" "no-cors" (some "*/*"))
      (Response.mk 200 "basic" "js") false rfl rfl rfl rfl rfl).1 rfl,
    (c4_selective_write_through []
      (Request.mk "/api/items" "GET" "no-cors" (some "*/*"))
      (Response.mk 200 "basic" "json") false rfl rfl rfl rfl rfl).2 rfl⟩

/-- C5: provided a current-generation instance exists when activation
runs (install created it), after the activation cleanup the set of
instance names is exactly `{CACHE_NAME}`: a name survives iff it is the
current generation identifier. -/
theorem c5_generation_sweep (st : CacheStorage)
    (h : CACHE_NAME ∈ st.map Prod.fst) :
    ∀ n, n ∈ (handleActivate st).map Prod.fst ↔ n = CACHE_NAME := by
  intro n
  constructor
  · intro hn
    rcases List.mem_map.mp hn with ⟨p, hp, rfl⟩
    have := (List.mem_filter.mp hp).2
    simpa using this
  · intro hn
    subst hn
    rcases List.mem_map.mp h with ⟨p, hp, hpeq⟩
    exact List.mem_map.mpr
      ⟨p, List.mem_filter.mpr ⟨hp, by simp [hpeq]⟩, hpeq⟩

/-- Witness for C5, E2E scenario D: with instances `goldshop-cache-v2`
and `goldshop-cache-v3`, after activation the stale name is gone. -/
theorem c5_generation_sweep_witness :
    ("goldshop-cache-v2" ∈
        (handleActivate [("goldshop-cache-v2", []), (CACHE_NAME, [])]).map
          Prod.fst ↔
      "goldshop-cache-v2" = CACHE_NAME) :=
  c5_generation_sweep [("goldshop-cache-v2", []), (CACHE_NAME, [])]
    (by decide) "goldshop-cache-v2"

/-- C6: manifest attempts are independent — whatever the other entries'
oracle outcomes (each failure caught by the per-URL `.catch`), every
manifest URL whose own `cache.add` succeeded is present in the
current-generation cache once `handleInstall` (a total function: all
entries attempted) completes. -/
theorem c6_install_independence (net : String → Option Response)
    (st : CacheStorage) (url : String) (r : Response)
    (hmem : url ∈ urlsToCache) (hr : net url = some r) :
    currentCacheHas (handleInstall net st) url = true := by
  unfold currentCacheHas handleInstall
  rw [cachesOpen_cachesSet]
  exact foldl_installStep_mem net urlsToCache _ url r hmem hr

/-- Witness for C6, E2E scenario A: an oracle where only `/` is reachable
(every other manifest entry fails, `/offline.html` included) still yields
a cached `/` after install. -/
theorem c6_install_independence_witness :
    currentCacheHas
      (handleInstall
        (fun u => if u = "/" then some (Response.mk 200 "basic" "home") else none)
        []) "/" = true :=
  c6_install_independence _ [] "/" (Response.mk 200 "basic" "home")
    (by decide) rfl

end SW

namespace SW

/-- C7, as stated, fails on the code: `self.clients.claim()` on line 119
runs synchronously in the listener body, while the deletions run only in
the `.then` continuation of `caches.keys()`; concretely, with instances
`goldshop-cache-v2` and `goldshop-cache-v3`, the trace places the claim at
position 1 and the stale deletion afterwards at position 2 — the claim is
not preceded by the awaited deletions. -/
theorem c7_counterexample :
    (activateTrace ["goldshop-cache-v2", "goldshop-cache-v3"]).get? 1 =
      some ActEvent.claimClients ∧
    (activateTrace ["goldshop-cache-v2", "goldshop-cache-v3"]).get? 2 =
      some (ActEvent.deleteCache "goldshop-cache-v2") := by
  decide

/-- C7 (amended): client control is claimed synchronously when the
activation listener runs, before any stale-cache deletion is attempted;
the deletions (one per non-current name, registered collectively via
`waitUntil`) all appear strictly after the claim in the listener's trace,
whatever the set of existing instance names. -/
theorem c7_claim_precedes_deletions (names : List String) :
    (activateTrace names).take 2 =
      [ActEvent.listKeys, ActEvent.claimClients] ∧
    ∀ e ∈ (activateTrace names).drop 2,
      ∃ n, e = ActEvent.deleteCache n ∧ n ≠ CACHE_NAME := by
  refine ⟨rfl, ?_⟩
  intro e he
  simp only [activateTrace, List.drop_succ_cons, List.drop_zero,
    List.mem_map, List.mem_filter, decide_eq_true_eq] at he
  rcases he with ⟨n, ⟨_, hn⟩, rfl⟩
  exact ⟨n, rfl, hn⟩

/-- C8: whenever the classifier on lines 46–47 returns (does not throw),
its verdict is `true` exactly when the mode is `'navigate'`, or the method
is `GET` and the Accept header is present and contains `text/html`; and
for a request with no cached match whose network fetch fails (rejects) or
yields an invalid result (missing, non-200, or non-`'basic'` response),
that verdict alone decides whether the offline-fallback lookup replaces
the result: if it is `false`, a rejection fails and an invalid response is
passed through as-is. -/
theorem c8_navigation_classification (req : Request) (b : Bool)
    (hcls : isHtmlNavigation req = Except.ok b) :
    (b = true ↔ (req.mode = "navigate" ∨ (req.method = "GET" ∧
      ∃ a, req.accept = some a ∧ containsSubstr a "text/html" = true))) ∧
    ∀ (st : CacheStorage) (net : NetworkResult),
      cachesMatch st req.url = none →
      (net = NetworkResult.rejected ∨
        net = NetworkResult.resolved none ∨
        ∃ r, net = NetworkResult.resolved (some r) ∧
          (r.status ≠ 200 ∨ r.rtype ≠ "basic")) →
      (handleFetch st req net).1 =
        (if b then FetchOutcome.responded (cachesMatch st "/offline.html")
          else
            match net with
            | NetworkResult.rejected => FetchOutcome.failed
            | NetworkResult.resolved nr => FetchOutcome.responded nr) := by
  constructor
  · unfold isHtmlNavigation at hcls
    by_cases hmode : req.mode = "navigate"
    · simp only [hmode, if_true, Except.ok.injEq] at hcls
      subst hcls
      simp [hmode]
    · by_cases hmeth : req.method = "GET"
      · cases hacc : req.accept with
        | none => simp [hmode, hmeth, hacc] at hcls
        | some a =>
          simp only [hmode, if_false, hmeth, if_true, hacc,
            Except.ok.injEq] at hcls
          subst hcls
          simp [hmode, hmeth, hacc]
      · simp only [hmode, if_false, hmeth, Except.ok.injEq] at hcls
        subst hcls
        simp [hmode, hmeth]
  · intro st net hnoc hfail
    rcases hfail with h | h | ⟨r, h, hr⟩
    · subst h; cases b <;> simp [handleFetch, hcls, hnoc]
    · subst h; cases b <;> simp [handleFetch, hcls, hnoc]
    · subst h; cases b <;> simp [handleFetch, hcls, hnoc, hr]

/-- Witness for C8: a navigation request with no cached match and the
network down is answered by the offline-fallback lookup, while a
non-navigation GET receiving a 404 gets that 404 passed through with no
offline substitution. -/
theorem c8_navigation_classification_witness :
    (handleFetch [] (Request.mk "/login" "GET" "navigate" (some "text/html"))
        NetworkResult.rejected).1 =
      FetchOutcome.responded (cachesMatch [] "/offline.html") ∧
    (handleFetch [] (Request.mk "/static/missing.png" "GET" "no-cors" (some "*/*"))
        (NetworkResult.resolved (some (Response.mk 404 "basic" "nf")))).1 =
      FetchOutcome.responded (some (Response.mk 404 "basic" "nf")) :=
  ⟨(c8_navigation_classification
      (Request.mk "/login" "GET" "navigate" (some "text/html")) true rfl).2
      [] NetworkResult.rejected rfl (Or.inl rfl),
    (c8_navigation_classification
      (Request.mk "/static/missing.png" "GET" "no-cors" (some "*/*")) false rfl).2
      [] (NetworkResult.resolved (some (Response.mk 404 "basic" "nf"))) rfl
      (Or.inr (Or.inr ⟨Response.mk 404 "basic" "nf", rfl, Or.inl (by decide)⟩))⟩

end SW
